import Mathlib

/-!
Shallow embedding of the GraphQL schema/resolver layer of the
hackernews-react-graphql repository (the schema document bundled in
src/pages/front.tsx) and of the ShowNew page (src/unnamed/part_000).

JavaScript values that matter to the resolvers are embedded explicitly:
nullable GraphQL Int arguments become `ArgVal` (undefined / null / int),
`context.userId` becomes `Option String` (none for an absent or null id;
JS truthiness of a string is emptiness-sensitive), and `Array.includes`
with a possibly-undefined needle becomes `jsIncludes`.
-/

namespace HN

/-- A JavaScript value sitting in a nullable GraphQL `Int` argument slot:
the argument may be absent (`undefined`), explicitly `null`, or an integer. -/
inductive ArgVal where
  | undefined : ArgVal
  | null : ArgVal
  | int : Int → ArgVal
deriving DecidableEq, Repr

/-- JS numeric coercion of an argument value, as used by `<` and `>`:
`undefined` coerces to NaN (modelled `none`), `null` coerces to `0`. -/
def ArgVal.toNumber : ArgVal → Option Int
  | .undefined => none
  | .null => some 0
  | .int n => some n

/-- JS `x < y` for an argument value against an integer constant:
any comparison against NaN is `false`. -/
def jsLtNum (x : ArgVal) (y : Int) : Bool :=
  match x.toNumber with
  | none => false
  | some v => v < y

/-- JS `x > y` for an argument value against an integer constant. -/
def jsGtNum (x : ArgVal) (y : Int) : Bool :=
  match x.toNumber with
  | none => false
  | some v => y < v

/-- The call the feed resolver forwards to `FeedSingleton.getForType`. -/
structure FeedCall where
  ftype : String
  limit : ArgVal
  skip : ArgVal
deriving DecidableEq, Repr

/-- Embeds `Query.feed` of src/pages/front.tsx:
`const limit = first < 1 || first > 30 ? 30 : first;`
`return context.FeedSingleton.getForType(type, limit, skip);`. -/
def feedResolver (ftype : String) (first skip : ArgVal) : FeedCall :=
  { ftype := ftype
    limit := if jsLtNum first 1 || jsGtNum first 30 then .int 30 else first
    skip := skip }

/-- JS truthiness of `context.userId` (`none` = absent or null;
a string is truthy iff nonempty). The resolvers guard with
`if (!context.userId)`, so this is exactly their notion of "set". -/
def userIdTruthy : Option String → Bool
  | none => false
  | some s => !s.isEmpty

/-- The record `{ ...newsItem, submitterId: context.userId }` handed to
`NewsItemService.submitNewsItem`. -/
structure SubmittedItem where
  title : String
  url : Option String
  text : Option String
  submitterId : String
deriving DecidableEq, Repr

/-- The `submitNewsItem` mutation arguments. The GraphQL schema declares
only title/url/text; the extra `submitterId` field models a client-supplied
value carried in the args object, which the JS spread copies before the
resolver overwrites it. -/
structure SubmitArgs where
  title : String
  url : Option String
  text : Option String
  submitterId : Option String
deriving DecidableEq, Repr

/-- Embeds the spread-then-override
`{ ...newsItem, submitterId: context.userId }`: every field of the args
object is copied and `submitterId` is then set to the context's user id. -/
def buildSubmission (args : SubmitArgs) (uid : String) : SubmittedItem :=
  { title := args.title, url := args.url, text := args.text, submitterId := uid }

/-- A call made to a service method from a mutation resolver. -/
inductive ServiceCall where
  | upvote (id : Int) (userId : String)
  | hide (id : Int) (userId : String)
  | submit (item : SubmittedItem)
deriving DecidableEq, Repr

/-- Result of running a mutation resolver: either a thrown `Error(msg)`
or the value returned by the service call. -/
inductive MutResult where
  | thrown (msg : String)
  | ok (call : ServiceCall)
deriving DecidableEq, Repr

/-- A mutation resolver's observable behaviour: its result and the list of
service calls it performed (in order). -/
structure MutationOutcome where
  result : MutResult
  calls : List ServiceCall
deriving DecidableEq, Repr

/-- Embeds `Mutation.upvoteNewsItem`:
`if (!context.userId) throw new Error('Must be logged in to vote.');`
`return context.NewsItemService.upvoteNewsItem(id, context.userId);`
with JS truthiness of the id unfolded (absent/null and the empty string
are falsy). -/
def upvoteNewsItemResolver (id : Int) (userId : Option String) : MutationOutcome :=
  match userId with
  | some s =>
      if s.isEmpty then { result := .thrown "Must be logged in to vote.", calls := [] }
      else { result := .ok (.upvote id s), calls := [.upvote id s] }
  | none => { result := .thrown "Must be logged in to vote.", calls := [] }

/-- Embeds `Mutation.hideNewsItem`:
`if (!context.userId) throw new Error('Must be logged in to hide post.');`
`return context.NewsItemService.hideNewsItem(id, context.userId);`. -/
def hideNewsItemResolver (id : Int) (userId : Option String) : MutationOutcome :=
  match userId with
  | some s =>
      if s.isEmpty then { result := .thrown "Must be logged in to hide post.", calls := [] }
      else { result := .ok (.hide id s), calls := [.hide id s] }
  | none => { result := .thrown "Must be logged in to hide post.", calls := [] }

/-- Embeds `Mutation.submitNewsItem`:
`if (!context.userId) throw new Error('Must be logged in to submit a news item.');`
`return context.NewsItemService.submitNewsItem({ ...newsItem, submitterId: context.userId });`. -/
def submitNewsItemResolver (args : SubmitArgs) (userId : Option String) : MutationOutcome :=
  match userId with
  | some s =>
      if s.isEmpty then
        { result := .thrown "Must be logged in to submit a news item.", calls := [] }
      else { result := .ok (.submit (buildSubmission args s))
             calls := [.submit (buildSubmission args s)] }
  | none => { result := .thrown "Must be logged in to submit a news item.", calls := [] }

/-- Whether `sub` occurs as a contiguous run inside `l`. -/
def hasSublist (sub : List Char) : List Char → Bool
  | [] => sub.isEmpty
  | c :: t => sub.isPrefixOf (c :: t) || hasSublist sub t

/-- Spec-side predicate: the error message says the caller must be logged
in (matches both "Must be logged in …" and "must be logged in …"). -/
def saysMustBeLoggedIn (msg : String) : Bool :=
  hasSublist "ust be logged in".toList msg.toList

/-- The `Comment` model record, with the fields the resolvers read. -/
structure CommentModel where
  id : Int
  submitterId : String
  upvotes : List String
deriving DecidableEq, Repr

/-- The `NewsItemModel` record, with the fields the resolvers read. -/
structure NewsItemModel where
  id : Int
  submitterId : String
  upvotes : List String
  hides : List String
deriving DecidableEq, Repr

/-- JS `list.includes(context.userId)` for a `[String]!` list: an
absent/null needle is never an element of a list of strings. -/
def jsIncludes (l : List String) (u : Option String) : Bool :=
  match u with
  | some s => l.contains s
  | none => false

/-- Embeds `Comment.upvoted`: `comment.upvotes.includes(context.userId)`. -/
def commentUpvotedResolver (c : CommentModel) (userId : Option String) : Bool :=
  jsIncludes c.upvotes userId

/-- Embeds `NewsItem.upvoted`: `newsItem.upvotes.includes(context.userId)`. -/
def newsItemUpvotedResolver (n : NewsItemModel) (userId : Option String) : Bool :=
  jsIncludes n.upvotes userId

/-- Embeds `NewsItem.hidden`: `newsItem.hides.includes(context.userId)`. -/
def newsItemHiddenResolver (n : NewsItemModel) (userId : Option String) : Bool :=
  jsIncludes n.hides userId

/-- Spec-side membership test: `context.userId ∈ list`, read as "the user
id is set and occurs in the list". -/
def specMember (u : Option String) (l : List String) : Prop :=
  ∃ s, s ∈ l ∧ u = some s

/-- Value returned by the `me` resolver: either the falsy `context.userId`
itself (the left operand of JS `&&`) or a fetched user. -/
inductive MeResult (U : Type) where
  | nullish (v : Option String) : MeResult U
  | fetched (u : U) : MeResult U
deriving DecidableEq, Repr

/-- The `me` resolver's observable behaviour: its result and the list of
`UserService.getUser` calls it performed. -/
structure MeOutcome (U : Type) where
  result : MeResult U
  getUserCalls : List String
deriving DecidableEq, Repr

/-- Embeds `Query.me`:
`return context.userId && context.UserService.getUser(context.userId);`
with JS `&&` unfolded: a falsy id (absent/null or empty string) is
returned as-is without touching `UserService`. -/
def meResolver {U : Type} (getUser : String → U) (userId : Option String) : MeOutcome U :=
  match userId with
  | some s =>
      if s.isEmpty then { result := .nullish (some s), getUserCalls := [] }
      else { result := .fetched (getUser s), getUserCalls := [s] }
  | none => { result := .nullish none, getUserCalls := [] }

/-- The value names of the `FeedType` enum declared by the schema document
in src/pages/front.tsx, in declaration order. -/
def feedTypeValues : List String := ["top", "new", "best", "show", "ask", "job"]

/-- `const POSTS_PER_PAGE = 30;` of the ShowNew page. -/
def POSTS_PER_PAGE : Int := 30

/-- The URL query parameter `p` as the ShowNew page sees it through the JS
unary `+` coercion: absent (`+undefined` is NaN), present but not numeric
(NaN), or an integer-valued number. -/
inductive PageParam where
  | absent : PageParam
  | nan : PageParam
  | num : Int → PageParam
deriving DecidableEq, Repr

/-- Numeric coercion of the parameter; `none` stands for NaN. -/
def coerceP : PageParam → Option Int
  | .absent => none
  | .nan => none
  | .num n => some n

/-- JS `x || 0` on a number-or-NaN: NaN and `0` are falsy and give `0`. -/
def jsOrZero : Option Int → Int
  | none => 0
  | some n => if n = 0 then 0 else n

/-- Embeds the ShowNew page's
`const pageNumber = (props.url.query && +props.url.query.p) || 0;`:
if the query object is falsy the whole `&&` is falsy and `|| 0` yields 0;
otherwise `+props.url.query.p` is coerced and `|| 0` maps NaN (and 0)
to 0. -/
def pageNumber (queryIsSet : Bool) (p : PageParam) : Int :=
  if queryIsSet then jsOrZero (coerceP p) else 0

/-- The pagination options the ShowNew page passes to `ShowHNNewsFeed`. -/
structure FeedOptions where
  first : Int
  skip : Int
deriving DecidableEq, Repr

/-- Embeds the options built by `ShowNewPage`:
`{ first: POSTS_PER_PAGE, skip: POSTS_PER_PAGE * pageNumber }`. -/
def showNewPageOptions (queryIsSet : Bool) (p : PageParam) : FeedOptions :=
  { first := POSTS_PER_PAGE, skip := POSTS_PER_PAGE * pageNumber queryIsSet p }

/-- The variables object sent with the ShowNew page's feed query. -/
structure QueryVariables where
  ftype : String
  first : Int
  skip : Int
deriving DecidableEq, Repr

/-- Embeds the `graphql` options function of `ShowHNNewsFeed`:
`variables: { type: 'SHOW', first, skip }`. -/
def showHNNewsFeedVariables (o : FeedOptions) : QueryVariables :=
  { ftype := "SHOW", first := o.first, skip := o.skip }

/-- The variables the ShowNew page's feed query sends for a given URL
query state: `ShowHNNewsFeed` applied to the page's options. -/
def showNewPageVariables (queryIsSet : Bool) (p : PageParam) : QueryVariables :=
  showHNNewsFeedVariables (showNewPageOptions queryIsSet p)

/-- A JS value flowing through the `Date` scalar's `serialize`. -/
inductive SerialVal where
  | jsDate (ms : Int) : SerialVal
  | jsNum (n : Int) : SerialVal
  | jsStr (s : String) : SerialVal
  | jsNull : SerialVal
deriving DecidableEq, Repr

/-- Embeds `Date.serialize`:
`return value instanceof Date ? value.valueOf() : value;`
(`valueOf` of a date is its millisecond timestamp). -/
def dateSerialize : SerialVal → SerialVal
  | .jsDate ms => .jsNum ms
  | v => v

/-- A GraphQL AST literal node as `parseLiteral` reads it: a kind tag and
the value in string form. -/
structure ASTNode where
  kind : String
  value : String
deriving DecidableEq, Repr

/-- `Kind.INT` of graphql/language. -/
def KindINT : String := "IntValue"

/-- Longest digit run at the head of the character list. -/
def takeDigits : List Char → List Char
  | [] => []
  | c :: t => if c.isDigit then c :: takeDigits t else []

/-- Left-fold accumulation of a base-10 digit run, as `parseInt` scans. -/
def foldlDigits (cs : List Char) : Nat :=
  cs.foldl (fun a c => a * 10 + (c.toNat - 48)) 0

/-- The unsigned tail of `parseInt(s, 10)`: the longest leading digit run,
NaN (`none`) if there is none. -/
def parseUnsigned (cs : List Char) : Option Int :=
  let ds := takeDigits cs
  if ds.isEmpty then none else some (foldlDigits ds : Int)

/-- `parseInt(s, 10)` on a character list: optional sign, then the longest
digit run; NaN (`none`) when no digits follow. -/
def parseIntChars (cs : List Char) : Option Int :=
  match cs with
  | [] => none
  | c :: r =>
      if c = '-' then (parseUnsigned r).map (fun v => -v)
      else if c = '+' then parseUnsigned r
      else parseUnsigned (c :: r)

/-- JS `parseInt(s, 10)`: skip leading whitespace, optional sign, longest
digit run; NaN (`none`) otherwise. -/
def parseIntBase10 (s : String) : Option Int :=
  parseIntChars (s.toList.dropWhile Char.isWhitespace)

/-- Result of the `Date` scalar's `parseLiteral`: a number, NaN, or null. -/
inductive LitResult where
  | num (n : Int) : LitResult
  | nan : LitResult
  | null : LitResult
deriving DecidableEq, Repr

/-- Embeds `Date.parseLiteral`:
`return ast.kind === Kind.INT ? parseInt(ast.value, 10) : null;`. -/
def dateParseLiteral (ast : ASTNode) : LitResult :=
  if ast.kind = KindINT then
    match parseIntBase10 ast.value with
    | some n => .num n
    | none => .nan
  else .null

/-- Spec-side value of a base-10 digit string, defined positionally:
the head digit weighs `10 ^ length` of the tail. -/
def specDecimalVal : List Char → Nat
  | [] => 0
  | c :: cs => (c.toNat - 48) * 10 ^ cs.length + specDecimalVal cs

/-- The left fold `parseInt` uses over a digit run computes the
positional base-10 value, shifted by the accumulator. -/
theorem foldl_digits_shift (cs : List Char) :
    ∀ a : Nat, cs.foldl (fun a c => a * 10 + (c.toNat - 48)) a
      = a * 10 ^ cs.length + specDecimalVal cs := by
  induction cs with
  | nil =>
      intro a
      simp [specDecimalVal]
  | cons c t ih =>
      intro a
      simp only [List.foldl_cons, List.length_cons, specDecimalVal]
      rw [ih]
      ring

/-- The digit-run fold equals the spec-side positional value. -/
theorem foldlDigits_eq_spec (cs : List Char) : foldlDigits cs = specDecimalVal cs := by
  have h := foldl_digits_shift cs 0
  simpa [foldlDigits] using h

/-- `takeDigits` keeps an all-digit list whole. -/
theorem takeDigits_of_digits (cs : List Char) (h : ∀ c ∈ cs, c.isDigit = true) :
    takeDigits cs = cs := by
  induction cs with
  | nil => rfl
  | cons c t ih =>
      have hc : c.isDigit = true := h c (List.mem_cons_self c t)
      simp [takeDigits, hc, ih (fun x hx => h x (List.mem_cons_of_mem c hx))]

/-- A digit character is not the minus sign. -/
theorem isDigit_ne_minus (c : Char) (h : c.isDigit = true) : c ≠ '-' := by
  intro he
  subst he
  exact absurd h (by decide)

/-- A digit character is not the plus sign. -/
theorem isDigit_ne_plus (c : Char) (h : c.isDigit = true) : c ≠ '+' := by
  intro he
  subst he
  exact absurd h (by decide)

/-- A digit character is not whitespace. -/
theorem isDigit_not_whitespace (c : Char) (h : c.isDigit = true) :
    c.isWhitespace = false := by
  cases hw : c.isWhitespace with
  | false => rfl
  | true =>
      have hd : ((c = ' ' ∨ c = '\t') ∨ c = '\r') ∨ c = '\n' := by
        simpa [Char.isWhitespace] using hw
      rcases hd with ((h1 | h1) | h1) | h1 <;> (subst h1; exact absurd h (by decide))

/-- `parseInt(s, 10)` on an all-digit string yields its positional
base-10 value. -/
theorem parseIntBase10_digits (ds : List Char) (h : ∀ c ∈ ds, c.isDigit = true)
    (hne : ds ≠ []) :
    parseIntBase10 (String.mk ds) = some (specDecimalVal ds : Int) := by
  cases ds with
  | nil => exact absurd rfl hne
  | cons c t =>
      have hc : c.isDigit = true := h c (List.mem_cons_self c t)
      have hws : c.isWhitespace = false := isDigit_not_whitespace c hc
      have htd : takeDigits (c :: t) = c :: t := takeDigits_of_digits _ h
      have hm : c ≠ '-' := isDigit_ne_minus c hc
      have hp : c ≠ '+' := isDigit_ne_plus c hc
      show parseIntChars ((c :: t).dropWhile Char.isWhitespace)
        = some (specDecimalVal (c :: t) : Int)
      rw [List.dropWhile_cons, hws]
      simp only [Bool.false_eq_true, if_false, parseIntChars, if_neg hm, if_neg hp,
        parseUnsigned, htd]
      simp [foldlDigits_eq_spec]

/-- `parseInt(s, 10)` on a minus sign followed by digits yields the
negated positional value. -/
theorem parseIntBase10_neg_digits (ds : List Char) (h : ∀ c ∈ ds, c.isDigit = true)
    (hne : ds ≠ []) :
    parseIntBase10 (String.mk ('-' :: ds)) = some (-(specDecimalVal ds : Int)) := by
  have htd : takeDigits ds = ds := takeDigits_of_digits _ h
  show parseIntChars (('-' :: ds).dropWhile Char.isWhitespace)
    = some (-(specDecimalVal ds : Int))
  rw [List.dropWhile_cons]
  simp only [show ('-').isWhitespace = false from rfl, Bool.false_eq_true, if_false,
    parseIntChars, if_pos rfl, parseUnsigned, htd]
  cases ds with
  | nil => exact absurd rfl hne
  | cons c t => simp [foldlDigits_eq_spec]

/-- The membership test computed by `Array.includes` agrees with the
spec-side membership predicate on `[String]!` lists. -/
theorem jsIncludes_iff (l : List String) (u : Option String) :
    jsIncludes l u = true ↔ specMember u l := by
  cases u with
  | none => simp [jsIncludes, specMember]
  | some s =>
      simp only [jsIncludes, specMember, Option.some.injEq]
      constructor
      · intro h
        exact ⟨s, by simpa using h, rfl⟩
      · rintro ⟨x, hx, rfl⟩
        simpa using hx

/-- C1 counterexample: when `first` is absent, the JS comparisons
`undefined < 1` and `undefined > 30` are both false, so the ternary
selects `first` itself and the limit forwarded to
`FeedSingleton.getForType` is `undefined`, not 30. -/
theorem feed_absent_first_counterexample :
    (feedResolver "new" ArgVal.undefined (ArgVal.int 0)).limit = ArgVal.undefined
  ∧ (feedResolver "new" ArgVal.undefined (ArgVal.int 0)).limit ≠ ArgVal.int 30 := by
  decide

/-- C1 (amended): the feed resolver forwards `type` and `skip` unchanged;
when `first` is an integer the limit equals `first` if `0 < first ≤ 30`
and 30 otherwise, so it lies in (0,30]; an explicit `null` also yields 30;
but an absent `first` is forwarded as `undefined` instead of 30. -/
theorem feed_limit_amended (t : String) (n : Int) (first skip : ArgVal) :
    (feedResolver t first skip).ftype = t
  ∧ (feedResolver t first skip).skip = skip
  ∧ (feedResolver t (.int n) skip).limit = (if n < 1 ∨ 30 < n then .int 30 else .int n)
  ∧ (∃ m : Int, (feedResolver t (.int n) skip).limit = .int m ∧ 0 < m ∧ m ≤ 30)
  ∧ (feedResolver t .null skip).limit = .int 30
  ∧ (feedResolver t .undefined skip).limit = .undefined := by
  refine ⟨rfl, rfl, ?_, ?_, by simp [feedResolver, jsLtNum, jsGtNum, ArgVal.toNumber], rfl⟩
  · by_cases h1 : n < 1
    · simp [feedResolver, jsLtNum, jsGtNum, ArgVal.toNumber, h1]
    · by_cases h2 : 30 < n
      · simp [feedResolver, jsLtNum, jsGtNum, ArgVal.toNumber, h1, h2]
      · simp [feedResolver, jsLtNum, jsGtNum, ArgVal.toNumber, h1, h2]
  · by_cases h1 : n < 1
    · exact ⟨30, by simp [feedResolver, jsLtNum, jsGtNum, ArgVal.toNumber, h1], by omega, by omega⟩
    · by_cases h2 : 30 < n
      · exact ⟨30, by simp [feedResolver, jsLtNum, jsGtNum, ArgVal.toNumber, h1, h2], by omega,
          by omega⟩
      · exact ⟨n, by simp [feedResolver, jsLtNum, jsGtNum, ArgVal.toNumber, h1, h2], by omega,
          by omega⟩

/-- C2: each mutation resolver does a single truthiness check on
`context.userId` (the code's `if (!context.userId)`, under which an
absent, null or empty-string id counts as not set): when the id is not
set, every mutation throws an error whose message says the caller must be
logged in; when it is set, no error is thrown and the corresponding
service method is called with the id. -/
theorem mutations_require_login (id : Int) (args : SubmitArgs) (userId : Option String) :
    (userIdTruthy userId = false
      ∧ (∃ m, (upvoteNewsItemResolver id userId).result = .thrown m
              ∧ saysMustBeLoggedIn m = true)
      ∧ (∃ m, (hideNewsItemResolver id userId).result = .thrown m
              ∧ saysMustBeLoggedIn m = true)
      ∧ (∃ m, (submitNewsItemResolver args userId).result = .thrown m
              ∧ saysMustBeLoggedIn m = true))
  ∨ (∃ s, userId = some s ∧ userIdTruthy userId = true
      ∧ (∀ m, (upvoteNewsItemResolver id userId).result ≠ .thrown m)
      ∧ (upvoteNewsItemResolver id userId).result = .ok (.upvote id s)
      ∧ (∀ m, (hideNewsItemResolver id userId).result ≠ .thrown m)
      ∧ (hideNewsItemResolver id userId).result = .ok (.hide id s)
      ∧ (∀ m, (submitNewsItemResolver args userId).result ≠ .thrown m)
      ∧ (submitNewsItemResolver args userId).result = .ok (.submit (buildSubmission args s))) := by
  cases userId with
  | none =>
      left
      exact ⟨rfl, ⟨_, rfl, by decide⟩, ⟨_, rfl, by decide⟩, ⟨_, rfl, by decide⟩⟩
  | some s =>
      by_cases h : s.isEmpty
      · left
        refine ⟨by simp [userIdTruthy, h], ⟨"Must be logged in to vote.", ?_, by decide⟩,
          ⟨"Must be logged in to hide post.", ?_, by decide⟩,
          ⟨"Must be logged in to submit a news item.", ?_, by decide⟩⟩
        · simp [upvoteNewsItemResolver, h]
        · simp [hideNewsItemResolver, h]
        · simp [submitNewsItemResolver, h]
      · right
        refine ⟨s, rfl, by simp [userIdTruthy, h], ?_, ?_, ?_, ?_, ?_, ?_⟩
        · intro m
          simp [upvoteNewsItemResolver, h]
        · simp [upvoteNewsItemResolver, h]
        · intro m
          simp [hideNewsItemResolver, h]
        · simp [hideNewsItemResolver, h]
        · intro m
          simp [submitNewsItemResolver, h]
        · simp [submitNewsItemResolver, h]

/-- C3: for every comment, news item and request context, the resolved
`upvoted` field equals the membership test of `context.userId` in the
item's `upvotes` list, and the resolved `hidden` field of a news item
equals the membership test in its `hides` list. -/
theorem upvoted_hidden_membership (c : CommentModel) (n : NewsItemModel) (u : Option String) :
    (commentUpvotedResolver c u = true ↔ specMember u c.upvotes)
  ∧ (newsItemUpvotedResolver n u = true ↔ specMember u n.upvotes)
  ∧ (newsItemHiddenResolver n u = true ↔ specMember u n.hides) :=
  ⟨jsIncludes_iff c.upvotes u, jsIncludes_iff n.upvotes u, jsIncludes_iff n.hides u⟩

/-- C4: the ShowNew page's feed query always sends `'SHOW'` as the
`FeedType` variable, and `'SHOW'` is not one of the six values the
schema's `FeedType` enum declares (they are lowercase). -/
theorem shownew_feed_type_not_declared (o : FeedOptions) (qs : Bool) (p : PageParam) :
    (showHNNewsFeedVariables o).ftype = "SHOW"
  ∧ (showNewPageVariables qs p).ftype = "SHOW"
  ∧ feedTypeValues.contains "SHOW" = false
  ∧ feedTypeValues = ["top", "new", "best", "show", "ask", "job"] :=
  ⟨rfl, rfl, by decide, rfl⟩

/-- C5: for every URL query state of the ShowNew page, the feed query is
sent with `first = 30` and `skip = 30 * pageNumber`, where the page
number is the numeric value of the `p` parameter and defaults to 0 when
the query object or the parameter is absent or not a number. -/
theorem shownew_pagination (qs : Bool) (p : PageParam) (n : Int) :
    (showNewPageVariables qs p).first = 30
  ∧ (showNewPageVariables qs p).skip = POSTS_PER_PAGE * pageNumber qs p
  ∧ pageNumber true (.num n) = n
  ∧ pageNumber true .absent = 0
  ∧ pageNumber true .nan = 0
  ∧ pageNumber false p = 0
  ∧ (showNewPageVariables true (.num n)).skip = 30 * n := by
  refine ⟨rfl, rfl, ?_, rfl, rfl, rfl, ?_⟩
  · by_cases h : n = 0 <;> simp [pageNumber, jsOrZero, coerceP, h]
  · show POSTS_PER_PAGE * pageNumber true (.num n) = 30 * n
    by_cases h : n = 0 <;> simp [pageNumber, jsOrZero, coerceP, POSTS_PER_PAGE, h]

/-- C6: the `me` resolver is a single truthiness check on
`context.userId` (the code's `userId && getUser(userId)`, under which an
absent, null or empty-string id counts as not set): when the id is set it
returns `UserService.getUser(userId)` having called the service exactly
once; when it is not set it returns the falsy id itself — a value that is
not a fetched user — and never calls `UserService`. -/
theorem me_null_check {U : Type} (getUser : String → U) (userId : Option String) :
    (userIdTruthy userId = false
       ∧ (meResolver getUser userId).result = .nullish userId
       ∧ (∀ u : U, (meResolver getUser userId).result ≠ .fetched u)
       ∧ (meResolver getUser userId).getUserCalls = [])
  ∨ (∃ s, userId = some s ∧ userIdTruthy userId = true
       ∧ (meResolver getUser userId).result = .fetched (getUser s)
       ∧ (meResolver getUser userId).getUserCalls = [s]) := by
  cases userId with
  | none =>
      left
      exact ⟨rfl, rfl, fun u => by simp [meResolver], rfl⟩
  | some s =>
      by_cases h : s.isEmpty
      · left
        refine ⟨by simp [userIdTruthy, h], by simp [meResolver, h], ?_, by simp [meResolver, h]⟩
        intro u
        simp [meResolver, h]
      · right
        exact ⟨s, rfl, by simp [userIdTruthy, h], by simp [meResolver, h], by simp [meResolver, h]⟩

/-- C8: an authenticated `submitNewsItem` call hands the service a record
whose `submitterId` is the context's user id — any client-supplied
`submitterId` in the args is overridden — while `title`, `url` and `text`
are forwarded unchanged. -/
theorem submit_sets_submitter_from_context (args : SubmitArgs) (s : String)
    (h : s.isEmpty = false) :
    (submitNewsItemResolver args (some s)).result
      = .ok (.submit { title := args.title, url := args.url, text := args.text,
                       submitterId := s })
  ∧ (submitNewsItemResolver args (some s)).calls
      = [.submit { title := args.title, url := args.url, text := args.text,
                   submitterId := s }]
  ∧ (∀ v : Option String,
      submitNewsItemResolver { args with submitterId := v } (some s)
        = submitNewsItemResolver args (some s)) := by
  refine ⟨by simp [submitNewsItemResolver, h, buildSubmission], ?_, ?_⟩
  · simp [submitNewsItemResolver, h, buildSubmission]
  · intro v
    simp [submitNewsItemResolver, h, buildSubmission]

/-- C8 witness: a concrete authenticated submission with a smuggled
`submitterId` still records the context's user id. -/
theorem submit_sets_submitter_from_context_witness :
    (submitNewsItemResolver
        { title := "Hello", url := some "http://x", text := none,
          submitterId := some "mallory" } (some "alice")).result
      = .ok (.submit { title := "Hello", url := some "http://x", text := none,
                       submitterId := "alice" })
  ∧ (submitNewsItemResolver
        { title := "Hello", url := some "http://x", text := none,
          submitterId := some "mallory" } (some "alice")).calls
      = [.submit { title := "Hello", url := some "http://x", text := none,
                   submitterId := "alice" }]
  ∧ (∀ v : Option String,
      submitNewsItemResolver
          { title := "Hello", url := some "http://x", text := none, submitterId := v }
          (some "alice")
        = submitNewsItemResolver
          { title := "Hello", url := some "http://x", text := none,
            submitterId := some "mallory" } (some "alice")) :=
  submit_sets_submitter_from_context
    { title := "Hello", url := some "http://x", text := none, submitterId := some "mallory" }
    "alice" (by decide)

/-- C9: an unauthenticated mutation throws before touching any service:
its call list is empty (so no state is changed) and its result is the
thrown error. -/
theorem unauthenticated_mutations_no_calls (id : Int) (args : SubmitArgs)
    (userId : Option String) (h : userIdTruthy userId = false) :
    (upvoteNewsItemResolver id userId).calls = []
  ∧ (hideNewsItemResolver id userId).calls = []
  ∧ (submitNewsItemResolver args userId).calls = []
  ∧ (∃ m, (upvoteNewsItemResolver id userId).result = .thrown m)
  ∧ (∃ m, (hideNewsItemResolver id userId).result = .thrown m)
  ∧ (∃ m, (submitNewsItemResolver args userId).result = .thrown m) := by
  cases userId with
  | none => exact ⟨rfl, rfl, rfl, ⟨_, rfl⟩, ⟨_, rfl⟩, ⟨_, rfl⟩⟩
  | some s =>
      have hs : s.isEmpty = true := by
        cases hE : s.isEmpty with
        | true => rfl
        | false => simp [userIdTruthy, hE] at h
      refine ⟨by simp [upvoteNewsItemResolver, hs], by simp [hideNewsItemResolver, hs],
        by simp [submitNewsItemResolver, hs],
        ⟨"Must be logged in to vote.", by simp [upvoteNewsItemResolver, hs]⟩,
        ⟨"Must be logged in to hide post.", by simp [hideNewsItemResolver, hs]⟩,
        ⟨"Must be logged in to submit a news item.", by simp [submitNewsItemResolver, hs]⟩⟩

/-- C9 witness: the concrete unauthenticated calls make no service calls
and end in a thrown error. -/
theorem unauthenticated_mutations_no_calls_witness :
    (upvoteNewsItemResolver 7 none).calls = []
  ∧ (hideNewsItemResolver 7 none).calls = []
  ∧ (submitNewsItemResolver { title := "t", url := none, text := none,
                              submitterId := none } none).calls = []
  ∧ (∃ m, (upvoteNewsItemResolver 7 none).result = .thrown m)
  ∧ (∃ m, (hideNewsItemResolver 7 none).result = .thrown m)
  ∧ (∃ m, (submitNewsItemResolver { title := "t", url := none, text := none,
                                    submitterId := none } none).result = .thrown m) :=
  unauthenticated_mutations_no_calls 7
    { title := "t", url := none, text := none, submitterId := none } none rfl

/-- C7: the Date scalar coerces dates to numbers: `serialize` returns the
date's millisecond value when the value is a Date and the value itself
otherwise; `parseLiteral` returns the base-10 integer parsed from the
literal's string (signed or unsigned) when the AST kind is INT, and null
for every other literal kind. -/
theorem date_scalar_coercion (ms n : Int) (s : String) (ast : ASTNode) (ds : List Char)
    (hds : ∀ c ∈ ds, c.isDigit = true) (hne : ds ≠ []) :
    dateSerialize (.jsDate ms) = .jsNum ms
  ∧ dateSerialize (.jsNum n) = .jsNum n
  ∧ dateSerialize (.jsStr s) = .jsStr s
  ∧ dateSerialize .jsNull = .jsNull
  ∧ (ast.kind = KindINT ∨ dateParseLiteral ast = .null)
  ∧ dateParseLiteral { kind := KindINT, value := String.mk ds }
      = .num (specDecimalVal ds : Int)
  ∧ dateParseLiteral { kind := KindINT, value := String.mk ('-' :: ds) }
      = .num (-(specDecimalVal ds : Int)) := by
  refine ⟨rfl, rfl, rfl, rfl, ?_, ?_, ?_⟩
  · by_cases hk : ast.kind = KindINT
    · exact Or.inl hk
    · exact Or.inr (by simp [dateParseLiteral, hk])
  · simp [dateParseLiteral, parseIntBase10_digits ds hds hne]
  · simp [dateParseLiteral, parseIntBase10_neg_digits ds hds hne]

/-- C7 witness: at the concrete digit list `['4', '2']` the hypotheses
hold and the INT literals "42" and "-42" parse to 42 and -42. -/
theorem date_scalar_coercion_witness :
    (∀ c ∈ (['4', '2'] : List Char), c.isDigit = true)
  ∧ (['4', '2'] : List Char) ≠ []
  ∧ dateParseLiteral { kind := KindINT, value := String.mk ['4', '2'] } = .num 42
  ∧ dateParseLiteral { kind := KindINT, value := String.mk ['-', '4', '2'] }
      = .num (-42) := by
  refine ⟨by decide, by decide, ?_, ?_⟩
  · have h := (date_scalar_coercion 0 0 "" { kind := KindINT, value := "" } ['4', '2']
      (by decide) (by decide)).2.2.2.2.2.1
    have hv : specDecimalVal ['4', '2'] = 42 := by decide
    rw [hv] at h
    exact_mod_cast h
  · have h := (date_scalar_coercion 0 0 "" { kind := KindINT, value := "" } ['4', '2']
      (by decide) (by decide)).2.2.2.2.2.2
    have hv : specDecimalVal ['4', '2'] = 42 := by decide
    rw [hv] at h
    exact_mod_cast h

/-- C10: with no user logged in, the resolved `upvoted` and `hidden`
flags of every comment and news item are false, because `includes` never
finds the absent user id in a list of strings. -/
theorem logged_out_flags_false (c : CommentModel) (n : NewsItemModel) :
    commentUpvotedResolver c none = false
  ∧ newsItemUpvotedResolver n none = false
  ∧ newsItemHiddenResolver n none = false :=
  ⟨rfl, rfl, rfl⟩

end HN
